import Mathlib

/-!
Shallow embedding of `trial_matching_agent.py` from the clinical agentic
screener repository: the patient / trial / match-result data model, the
extraction agent's error-handling shell, the three-check matching agent,
and the workflow orchestrator.

Python strings are modelled as Lean `String`; Python `str.lower()` as an
ASCII lowercase map (identical on the ASCII inputs used throughout);
Python's substring operator `in` as `strContains`; Python's unbounded
`int` as `Int`; Python `float` biomarker values as `ℚ` (they are never
read by any modelled computation); `datetime.now()` timestamps as a `Nat`
passed explicitly.  Exceptions are modelled with `Except`.
-/

namespace Screener

/-- ASCII lowercase of one character, as Python `str.lower` acts on ASCII:
uppercase letters are shifted by 32, everything else unchanged. -/
def lowerChar (c : Char) : Char :=
  if 65 ≤ c.toNat ∧ c.toNat ≤ 90 then Char.ofNat (c.toNat + 32) else c

/-- Python `s.lower()` on a string (ASCII fragment). -/
def strLower (s : String) : String :=
  ⟨s.data.map lowerChar⟩

/-- Is `n` a prefix of `h`?  (Helper for the substring test.) -/
def isPrefOf : List Char → List Char → Bool
  | [], _ => true
  | _ :: _, [] => false
  | a :: as, b :: bs => a == b && isPrefOf as bs

/-- Does `needle` occur as a contiguous sublist of `hay`?  Models Python's
`needle in hay` for strings (the empty needle occurs in every string). -/
def containsSub : List Char → List Char → Bool
  | [], needle => needle.isEmpty
  | h :: t, needle => isPrefOf needle (h :: t) || containsSub t needle

/-- Python's `needle in hay` on strings. -/
def strContains (hay needle : String) : Bool :=
  containsSub hay.data needle.data

/-- Specification-side notion of substring occurrence: `hay` splits as
`pre ++ needle ++ suf`. -/
def SubstrSpec (needle hay : List Char) : Prop :=
  ∃ pre suf, hay = pre ++ needle ++ suf

/-- Python `s[:n]` on a string. -/
def strTake (s : String) (n : Nat) : String :=
  ⟨s.data.take n⟩

/-! Data models (`PatientData`, `ClinicalTrial`, `MatchResult`). -/

/-- Model `PatientData` (pydantic model, lines 23-35).  Biomarker values are
floats in the source, modelled as `ℚ`; no modelled computation reads them. -/
structure PatientData where
  patient_id : String
  age : Int
  diagnosis : String
  biomarkers : List (String × ℚ) := []
  medications : List String := []
  location : String
deriving Repr, DecidableEq

/-- The `validate_age` pydantic validator (lines 32-35): raises
`ValueError(f"Invalid age: {v}")` when `v < 0 or v > 120`, else returns `v`. -/
def validate_age (v : Int) : Except String Int :=
  if v < 0 ∨ v > 120 then Except.error ("Invalid age: " ++ toString v)
  else Except.ok v

/-- Constructing a `PatientData` value: pydantic runs `validate_age` on the
`age` field and accepts every other field as given. -/
def mkPatientData (pid : String) (age : Int) (diagnosis : String)
    (biomarkers : List (String × ℚ)) (medications : List String)
    (location : String) : Except String PatientData :=
  (validate_age age).map fun a =>
    { patient_id := pid, age := a, diagnosis := diagnosis,
      biomarkers := biomarkers, medications := medications,
      location := location }

/-- Model `ClinicalTrial` (lines 37-46).  `required_biomarkers` is a dict of
unspecified numeric tuples in the source, modelled as an association list of
rational lists; no modelled computation reads it. -/
structure ClinicalTrial where
  trial_id : String
  title : String
  condition : String
  phase : String
  age_min : Int
  age_max : Int
  required_biomarkers : List (String × List ℚ) := []
  excluded_medications : List String := []
  locations : List String
deriving Repr, DecidableEq

/-- Model `MatchResult` (lines 48-55); the `datetime.now()` default timestamp is
modelled as an explicitly supplied `Nat`. -/
structure MatchResult where
  patient_id : String
  trial_id : String
  match_decision : Bool
  confidence_score : ℚ
  reasoning : List String
  missing_criteria : List String
  timestamp : Nat
deriving Repr, DecidableEq

/-! The matching agent, `TrialMatchingAgent.evaluate_match` (lines 116-162). -/

/-- Logic 1 (lines 122-128): `trial.condition.lower() in patient.diagnosis.lower()`. -/
def diagPass (patient : PatientData) (trial : ClinicalTrial) : Bool :=
  strContains (strLower patient.diagnosis) (strLower trial.condition)

/-- Logic 2 (lines 130-136): `trial.age_min <= patient.age <= trial.age_max`. -/
def agePass (patient : PatientData) (trial : ClinicalTrial) : Bool :=
  decide (trial.age_min ≤ patient.age ∧ patient.age ≤ trial.age_max)

/-- Logic 3 (lines 138-147):
`any(site.lower() in patient.location.lower() for site in trial.locations)`. -/
def locationPass (patient : PatientData) (trial : ClinicalTrial) : Bool :=
  trial.locations.any fun site =>
    strContains (strLower patient.location) (strLower site)

/-- Embeds `TrialMatchingAgent.evaluate_match` (lines 116-162).  The three checks
run in order (diagnosis, age, location), each appending to `reasoning` on
pass and to `missing` on fail; `checks` ends at 3, `passed` counts the
passing checks, `confidence = passed / checks` (guarded by `checks > 0`),
and `decision = (confidence == 1.0)`.  The list of trial sites in the
location-mismatch message is rendered by Lean's list `toString`, which
differs from Python's `repr` only in quoting. -/
def evaluate_match (patient : PatientData) (trial : ClinicalTrial)
    (now : Nat) : MatchResult :=
  let dp := diagPass patient trial
  let ap := agePass patient trial
  let lp := locationPass patient trial
  let reasoning : List String :=
    (if dp then ["✓ Diagnosis match: " ++ patient.diagnosis] else []) ++
    (if ap then ["✓ Age " ++ toString patient.age ++ " within range"] else []) ++
    (if lp then ["✓ Location match: " ++ patient.location] else [])
  let missing : List String :=
    (if dp then [] else
      ["Diagnosis mismatch: " ++ patient.diagnosis ++ " != " ++ trial.condition]) ++
    (if ap then [] else
      ["Age " ++ toString patient.age ++ " outside " ++ toString trial.age_min
        ++ "-" ++ toString trial.age_max]) ++
    (if lp then [] else
      ["Location " ++ patient.location ++ " not in trial sites "
        ++ toString trial.locations])
  let checks : Nat := 3
  let passed : Nat :=
    (if dp then 1 else 0) + (if ap then 1 else 0) + (if lp then 1 else 0)
  let confidence : ℚ := if checks > 0 then (passed : ℚ) / (checks : ℚ) else 0
  let decision : Bool := decide (confidence = 1)
  { patient_id := patient.patient_id
    trial_id := trial.trial_id
    match_decision := decision
    confidence_score := confidence
    reasoning := reasoning
    missing_criteria := missing
    timestamp := now }

/-! The extraction agent, `PatientExtractionAgent.extract_from_text`
(lines 64-113).  The external language-model call and the JSON parse are
modelled by an `ExtractionOutcome` input describing how far the happy path
of the `try` block got: the call raised, the returned content could not be
parsed into the expected shape, or a record of the expected shape was
parsed (possibly still failing age validation). -/

/-- A JSON object parsed into the shape the prompt requests (the dict fed
to `PatientData(**result)` at line 103).  `biomarkers` and `medications`
may be absent, in which case lines 100-101 default them to empty. -/
structure ParsedRecord where
  patient_id : String
  age : Int
  diagnosis : String
  biomarkers? : Option (List (String × ℚ)) := none
  medications? : Option (List String) := none
  location : String
deriving Repr, DecidableEq

/-- Outcome of the external call plus JSON decode, an input to the
embedding of `extract_from_text`: `invokeError` models `chain.invoke`
raising (line 90), `parseError` models `json.loads` failing or the decoded
content not having the expected shape (line 97 / non-age pydantic errors),
`parsed` models a successfully decoded record (which pydantic age
validation may still reject).  The carried string is `str(e)` for the
corresponding exception. -/
inductive ExtractionOutcome where
  | invokeError (e : String)
  | parseError (e : String)
  | parsed (r : ParsedRecord)
deriving Repr, DecidableEq

/-- Body of the `try` block (lines 88-103): propagate call / parse errors,
default missing `biomarkers` / `medications` to empty containers, then
construct the `PatientData` (running age validation). -/
def extract_attempt : ExtractionOutcome → Except String PatientData
  | .invokeError e => .error e
  | .parseError e => .error e
  | .parsed r =>
      mkPatientData r.patient_id r.age r.diagnosis
        (r.biomarkers?.getD []) (r.medications?.getD []) r.location

/-- The sentinel record built in the `except` handler (lines 111-113):
`PatientData(patient_id="ERR", age=0, diagnosis=f"Failed: X", location="Unknown")`
where X is the first 50 characters of `str(e)`. -/
def errorRecord (e : String) : PatientData :=
  { patient_id := "ERR", age := 0, diagnosis := "Failed: " ++ strTake e 50,
    biomarkers := [], medications := [], location := "Unknown" }

/-- Embeds `PatientExtractionAgent.extract_from_text` (lines 64-113): the
`try` block's result on success, the sentinel record on any caught
exception.  Totality of this function is the "raises no exception to its
caller" guarantee. -/
def extract_from_text (outcome : ExtractionOutcome) : PatientData :=
  match extract_attempt outcome with
  | .ok p => p
  | .error e => errorRecord e

/-! The orchestrator, `WorkflowOrchestrator.run_workflow` (lines 166-180). -/

/-- Orchestrator state: the `history` list (line 170, entries `(time, matches)`),
plus the stream of pending external-extraction outcomes — each call the
orchestrator makes to the extraction component consumes exactly one
element of `pending`. -/
structure WorkflowOrchestrator where
  pending : List ExtractionOutcome
  history : List (Nat × Nat)

/-- Embeds `WorkflowOrchestrator.run_workflow` (lines 172-180): one call to
the extraction component (consuming the head of `pending`; `none` when the
oracle stream is exhausted), then `evaluate_match` once per trial in input
order, then one history entry `(time, len(results))` appended. -/
def run_workflow (o : WorkflowOrchestrator) (_text : String)
    (trials : List ClinicalTrial) (now : Nat) :
    Option (List MatchResult × WorkflowOrchestrator) :=
  match o.pending with
  | [] => none
  | outcome :: rest =>
      let patient := extract_from_text outcome
      let results := trials.map fun trial => evaluate_match patient trial now
      some (results,
        { pending := rest, history := o.history ++ [(now, results.length)] })

/-! Supporting lemmas about the substring test. -/

/-- Correctness of the prefix test used by the substring check. -/
theorem isPrefOf_iff (n h : List Char) : isPrefOf n h = true ↔ ∃ s, h = n ++ s := by
  induction n generalizing h with
  | nil => simp [isPrefOf]
  | cons a as ih =>
    cases h with
    | nil => simp [isPrefOf]
    | cons b bs =>
      simp [isPrefOf, ih, List.cons_eq_cons, eq_comm (a := a) (b := b)]

/-- The Boolean substring test agrees with the split-based notion of
substring occurrence. -/
theorem containsSub_iff (h n : List Char) :
    containsSub h n = true ↔ ∃ p s, h = p ++ n ++ s := by
  induction h with
  | nil =>
    simp only [containsSub, List.isEmpty_iff]
    constructor
    · rintro rfl
      exact ⟨[], [], rfl⟩
    · rintro ⟨p, s, hp⟩
      rcases List.append_eq_nil.mp (List.append_eq_nil.mp hp.symm).1 with ⟨-, h2⟩
      exact h2
  | cons a t ih =>
    rw [containsSub]
    simp only [Bool.or_eq_true, isPrefOf_iff, ih]
    constructor
    · rintro (⟨s, hs⟩ | ⟨p, s, hps⟩)
      · exact ⟨[], s, by simp [hs]⟩
      · exact ⟨a :: p, s, by simp [hps]⟩
    · rintro ⟨p, s, hp⟩
      cases p with
      | nil => exact Or.inl ⟨s, by simpa using hp⟩
      | cons x p' =>
        right
        rw [List.cons_append, List.cons_append] at hp
        injection hp with h1 h2
        exact ⟨p', s, h2⟩

/-- The empty string occurs in every string, as Python's `"" in s` does. -/
theorem containsSub_nil (h : List Char) : containsSub h [] = true := by
  cases h <;> simp [containsSub, isPrefOf, List.isEmpty]

/-- Closed form of `mkPatientData`: construction succeeds, with every field
accepted as given, exactly when the age is in `[0, 120]`, and otherwise
fails with the validator's error message. -/
theorem mkPatientData_characterization (pid diagnosis location : String)
    (biomarkers : List (String × ℚ)) (medications : List String) (age : Int) :
    mkPatientData pid age diagnosis biomarkers medications location
      = if 0 ≤ age ∧ age ≤ 120
        then Except.ok ⟨pid, age, diagnosis, biomarkers, medications, location⟩
        else Except.error ("Invalid age: " ++ toString age) := by
  simp only [mkPatientData, validate_age]
  by_cases h : age < 0 ∨ age > 120
  · rw [if_pos h, if_neg (by omega)]
    rfl
  · rw [if_neg h, if_pos (by omega)]
    rfl

/-! Claim theorems. -/

/-- C1: for every patient and trial, the `MatchResult` returned by
`evaluate_match` has `reasoning.length + missing_criteria.length = 3`
(the total checks evaluated) and
`confidence_score = reasoning.length / 3`. -/
theorem evaluate_match_check_counts (p : PatientData) (t : ClinicalTrial) (now : Nat) :
    (evaluate_match p t now).reasoning.length
        + (evaluate_match p t now).missing_criteria.length = 3
      ∧ (evaluate_match p t now).confidence_score
        = ((evaluate_match p t now).reasoning.length : ℚ) / 3 := by
  cases hd : diagPass p t <;> cases ha : agePass p t <;> cases hl : locationPass p t <;>
    simp [evaluate_match, hd, ha, hl]

/-- C2: for every patient and trial, the eligibility decision of
`evaluate_match` is true iff `confidence_score = 1`, equivalently iff
`missing_criteria` is empty; and on a concrete pair satisfying exactly two
of the three checks (age and location pass, diagnosis fails) the decision
is false. -/
theorem evaluate_match_strict_decision (p : PatientData) (t : ClinicalTrial) (now : Nat) :
    ((evaluate_match p t now).match_decision = true
        ↔ (evaluate_match p t now).confidence_score = 1)
      ∧ ((evaluate_match p t now).match_decision = true
        ↔ (evaluate_match p t now).missing_criteria = [])
      ∧ (evaluate_match ⟨"P1", 52, "Type 2 Diabetes", [], [], "Toronto"⟩
          ⟨"NCT002", "Hypertension Study", "Hypertension", "Phase 2", 40, 80, [], [], ["Toronto"]⟩
          0).reasoning.length = 2
      ∧ (evaluate_match ⟨"P1", 52, "Type 2 Diabetes", [], [], "Toronto"⟩
          ⟨"NCT002", "Hypertension Study", "Hypertension", "Phase 2", 40, 80, [], [], ["Toronto"]⟩
          0).match_decision = false := by
  have hd2 : diagPass ⟨"P1", 52, "Type 2 Diabetes", [], [], "Toronto"⟩
      ⟨"NCT002", "Hypertension Study", "Hypertension", "Phase 2", 40, 80, [], [], ["Toronto"]⟩
      = false := by decide
  have ha2 : agePass ⟨"P1", 52, "Type 2 Diabetes", [], [], "Toronto"⟩
      ⟨"NCT002", "Hypertension Study", "Hypertension", "Phase 2", 40, 80, [], [], ["Toronto"]⟩
      = true := by decide
  have hl2 : locationPass ⟨"P1", 52, "Type 2 Diabetes", [], [], "Toronto"⟩
      ⟨"NCT002", "Hypertension Study", "Hypertension", "Phase 2", 40, 80, [], [], ["Toronto"]⟩
      = true := by decide
  refine ⟨?_, ?_, ?_, ?_⟩
  · cases hd : diagPass p t <;> cases ha : agePass p t <;> cases hl : locationPass p t <;>
      simp [evaluate_match, hd, ha, hl]
  · cases hd : diagPass p t <;> cases ha : agePass p t <;> cases hl : locationPass p t <;>
      simp [evaluate_match, hd, ha, hl] <;> norm_num
  · simp [evaluate_match, hd2, ha2, hl2]
  · simp [evaluate_match, hd2, ha2, hl2]
    norm_num

/-- C3: constructing a `PatientData` fails with a validation error exactly
when the age is outside `[0, 120]`; in particular ages `-1` and `121`
fail, while ages `0` and `120` succeed with every field accepted as
given. -/
theorem mkPatientData_age_validation (pid diagnosis location : String)
    (biomarkers : List (String × ℚ)) (medications : List String) (age : Int) :
    (mkPatientData pid age diagnosis biomarkers medications location
        = if 0 ≤ age ∧ age ≤ 120
          then Except.ok ⟨pid, age, diagnosis, biomarkers, medications, location⟩
          else Except.error ("Invalid age: " ++ toString age))
      ∧ mkPatientData "x" (-1) "d" [] [] "l" = Except.error "Invalid age: -1"
      ∧ mkPatientData "x" 121 "d" [] [] "l" = Except.error "Invalid age: 121"
      ∧ mkPatientData "x" 0 "d" [] [] "l" = Except.ok ⟨"x", 0, "d", [], [], "l"⟩
      ∧ mkPatientData "x" 120 "d" [] [] "l" = Except.ok ⟨"x", 120, "d", [], [], "l"⟩ :=
  ⟨mkPatientData_characterization pid diagnosis location biomarkers medications age,
   rfl, rfl, rfl, rfl⟩

/-- C4: the diagnosis check passes iff the trial's condition, compared
case-insensitively, occurs as a substring of the patient's diagnosis;
condition "Diabetes" passes against diagnosis "Type 2 Diabetes" and
against "type 2 diabetes". -/
theorem diagPass_substring (p : PatientData) (t : ClinicalTrial) :
    (diagPass p t = true
        ↔ SubstrSpec (strLower t.condition).data (strLower p.diagnosis).data)
      ∧ diagPass ⟨"P1", 52, "Type 2 Diabetes", [], [], "Toronto"⟩
          ⟨"NCT001", "Diabetes Phase 3", "Diabetes", "Phase 3", 18, 75, [], [], ["Toronto"]⟩
          = true
      ∧ diagPass ⟨"P1", 52, "type 2 diabetes", [], [], "Toronto"⟩
          ⟨"NCT001", "Diabetes Phase 3", "Diabetes", "Phase 3", 18, 75, [], [], ["Toronto"]⟩
          = true := by
  refine ⟨?_, by decide, by decide⟩
  rw [diagPass, strContains]
  exact containsSub_iff _ _

/-- C5: the location check passes iff some trial site string, compared
case-insensitively, occurs as a substring of the patient's location;
site "Toronto" passes against location "Toronto, ON, Canada", but
location "Toronto" does not pass against a sole site
"Toronto, ON, Canada" (containment is site-in-patient-location only). -/
theorem locationPass_substring (p : PatientData) (t : ClinicalTrial) :
    (locationPass p t = true
        ↔ ∃ site ∈ t.locations,
            SubstrSpec (strLower site).data (strLower p.location).data)
      ∧ locationPass ⟨"P1", 52, "d", [], [], "Toronto, ON, Canada"⟩
          ⟨"T", "t", "c", "p", 0, 1, [], [], ["Toronto"]⟩ = true
      ∧ locationPass ⟨"P1", 52, "d", [], [], "Toronto"⟩
          ⟨"T", "t", "c", "p", 0, 1, [], [], ["Toronto, ON, Canada"]⟩ = false := by
  refine ⟨?_, by decide, by decide⟩
  rw [locationPass]
  simp only [List.any_eq_true, strContains, SubstrSpec, containsSub_iff]

/-- C6: the age check passes iff
`trial.age_min ≤ patient.age ≤ trial.age_max`, both endpoints inclusive:
a patient aged exactly `age_min` or exactly `age_max` passes. -/
theorem agePass_inclusive_range (p : PatientData) (t : ClinicalTrial) :
    (agePass p t = true ↔ t.age_min ≤ p.age ∧ p.age ≤ t.age_max)
      ∧ agePass ⟨"P", 18, "d", [], [], "l"⟩
          ⟨"T", "t", "c", "p", 18, 75, [], [], ["x"]⟩ = true
      ∧ agePass ⟨"P", 75, "d", [], [], "l"⟩
          ⟨"T", "t", "c", "p", 18, 75, [], [], ["x"]⟩ = true := by
  refine ⟨?_, by decide, by decide⟩
  simp [agePass]

/-- C7: `run_workflow` consumes exactly one extraction outcome (one call
to the extraction component), evaluates the resulting record against each
trial in input order, and returns a list whose length equals the input
trial list's and whose i-th element is the matcher's result for the i-th
trial. -/
theorem run_workflow_spec (outcome : ExtractionOutcome) (rest : List ExtractionOutcome)
    (hist : List (Nat × Nat)) (text : String) (trials : List ClinicalTrial) (now : Nat) :
    (run_workflow ⟨outcome :: rest, hist⟩ text trials now
        = some (trials.map fun t => evaluate_match (extract_from_text outcome) t now,
                ⟨rest, hist ++ [(now, trials.length)]⟩))
      ∧ (trials.map fun t => evaluate_match (extract_from_text outcome) t now).length
          = trials.length
      ∧ ∀ i : Nat,
          (trials.map fun t => evaluate_match (extract_from_text outcome) t now)[i]?
            = (trials[i]?).map fun t => evaluate_match (extract_from_text outcome) t now := by
  refine ⟨?_, by simp, fun i => by simp⟩
  simp [run_workflow]

/-- C8: `extract_from_text` never propagates a failure (it is a total
function): when the external call throws or the content is unparseable it
returns the sentinel record (`patient_id = "ERR"`, age 0, diagnosis
"Failed: " plus the first 50 characters of the error, location
"Unknown"), and when the parsed record fails age validation it returns the
same sentinel for the validator's error; otherwise the parsed record is
returned with missing biomarker/medication fields defaulted to empty. -/
theorem extract_from_text_fallback :
    (∀ e, extract_from_text (.invokeError e) = errorRecord e)
      ∧ (∀ e, extract_from_text (.parseError e) = errorRecord e)
      ∧ (∀ r : ParsedRecord,
          extract_from_text (.parsed r)
            = if 0 ≤ r.age ∧ r.age ≤ 120
              then ⟨r.patient_id, r.age, r.diagnosis, r.biomarkers?.getD [],
                    r.medications?.getD [], r.location⟩
              else errorRecord ("Invalid age: " ++ toString r.age))
      ∧ (∀ e, (errorRecord e).patient_id = "ERR" ∧ (errorRecord e).age = 0
            ∧ (errorRecord e).diagnosis = "Failed: " ++ strTake e 50
            ∧ (errorRecord e).location = "Unknown") := by
  refine ⟨fun e => rfl, fun e => rfl, fun r => ?_, fun e => ⟨rfl, rfl, rfl, rfl⟩⟩
  simp only [extract_from_text, extract_attempt, mkPatientData_characterization]
  split_ifs with h <;> rfl

/-- C9: `evaluate_match` does not depend on the patient's biomarkers or
medications or on the trial's required_biomarkers or excluded_medications:
two input pairs differing only in those four fields (and in the
timestamp argument) produce results agreeing on every field except the
timestamp. -/
theorem evaluate_match_ignores_inert_fields
    (pid : String) (age : Int) (diagnosis location : String)
    (b₁ b₂ : List (String × ℚ)) (m₁ m₂ : List String)
    (tid title condition phase : String) (amin amax : Int)
    (rb₁ rb₂ : List (String × List ℚ)) (em₁ em₂ : List String)
    (locs : List String) (now₁ now₂ : Nat) :
    ((evaluate_match ⟨pid, age, diagnosis, b₁, m₁, location⟩
          ⟨tid, title, condition, phase, amin, amax, rb₁, em₁, locs⟩ now₁).patient_id
        = (evaluate_match ⟨pid, age, diagnosis, b₂, m₂, location⟩
          ⟨tid, title, condition, phase, amin, amax, rb₂, em₂, locs⟩ now₂).patient_id)
      ∧ ((evaluate_match ⟨pid, age, diagnosis, b₁, m₁, location⟩
          ⟨tid, title, condition, phase, amin, amax, rb₁, em₁, locs⟩ now₁).trial_id
        = (evaluate_match ⟨pid, age, diagnosis, b₂, m₂, location⟩
          ⟨tid, title, condition, phase, amin, amax, rb₂, em₂, locs⟩ now₂).trial_id)
      ∧ ((evaluate_match ⟨pid, age, diagnosis, b₁, m₁, location⟩
          ⟨tid, title, condition, phase, amin, amax, rb₁, em₁, locs⟩ now₁).match_decision
        = (evaluate_match ⟨pid, age, diagnosis, b₂, m₂, location⟩
          ⟨tid, title, condition, phase, amin, amax, rb₂, em₂, locs⟩ now₂).match_decision)
      ∧ ((evaluate_match ⟨pid, age, diagnosis, b₁, m₁, location⟩
          ⟨tid, title, condition, phase, amin, amax, rb₁, em₁, locs⟩ now₁).confidence_score
        = (evaluate_match ⟨pid, age, diagnosis, b₂, m₂, location⟩
          ⟨tid, title, condition, phase, amin, amax, rb₂, em₂, locs⟩ now₂).confidence_score)
      ∧ ((evaluate_match ⟨pid, age, diagnosis, b₁, m₁, location⟩
          ⟨tid, title, condition, phase, amin, amax, rb₁, em₁, locs⟩ now₁).reasoning
        = (evaluate_match ⟨pid, age, diagnosis, b₂, m₂, location⟩
          ⟨tid, title, condition, phase, amin, amax, rb₂, em₂, locs⟩ now₂).reasoning)
      ∧ ((evaluate_match ⟨pid, age, diagnosis, b₁, m₁, location⟩
          ⟨tid, title, condition, phase, amin, amax, rb₁, em₁, locs⟩ now₁).missing_criteria
        = (evaluate_match ⟨pid, age, diagnosis, b₂, m₂, location⟩
          ⟨tid, title, condition, phase, amin, amax, rb₂, em₂, locs⟩ now₂).missing_criteria) :=
  ⟨rfl, rfl, rfl, rfl, rfl, rfl⟩

/-- C10: if a trial's locations list contains the empty string, the
location check passes for every patient (the empty string is a substring
of every string). -/
theorem locationPass_empty_site (p : PatientData) (t : ClinicalTrial)
    (h : "" ∈ t.locations) : locationPass p t = true := by
  rw [locationPass, List.any_eq_true]
  exact ⟨"", h, containsSub_nil _⟩

/-- C10 witness: a concrete trial whose only site is the empty string
passes the location check against an unrelated patient location. -/
theorem locationPass_empty_site_witness :
    locationPass ⟨"P", 1, "d", [], [], "Anywhere"⟩
      ⟨"T", "t", "c", "p", 0, 1, [], [], [""]⟩ = true :=
  locationPass_empty_site _ _ (by decide)

end Screener
